import Mathlib

/-!
Verification development for the BRGEMM JIT kernel generator
(`jit_brgemm_kernel.cpp`).  The definitions below are a shallow embedding of
the generator's decision logic and of the instruction sequences it emits:
pure index computations become Lean functions, loop nests that emit
instructions become functions producing lists of abstract instructions, and
fallible generation steps (C++ `assert`) become `Option`-valued selections.
Machine integers are modelled as `Int`/`Nat` with explicit `% 2^w` where
overflow matters; `float` descriptor scalars (`alpha`, `beta`) are modelled
as `ℚ` (the generator only compares them against 0 and 1 when deciding what
to emit).
-/

namespace Brgemm

/-- Target instruction sets distinguished by the generator
(`brg.isa_impl`). -/
inductive Isa
  | avx2
  | avx2_vnni
  | avx2_vnni_2
  | avx512_core
  | avx512_core_vnni
  | avx512_core_bf16
  | avx512_core_fp16
  | avx512_core_amx
deriving DecidableEq, Repr

/-- Number of vector registers of an ISA (`isa_num_vregs`): 16 for the
AVX2 family, 32 for the AVX-512 family. -/
def isa_num_vregs : Isa → Int
  | .avx2 => 16
  | .avx2_vnni => 16
  | .avx2_vnni_2 => 16
  | _ => 32

/-- Element data types appearing in the kernel descriptor. -/
inductive DataType
  | f32
  | s32
  | bf16
  | f16
  | s8
  | u8
  | f8_e5m2
  | f8_e4m3
  | nf4
  | s4
  | u4
deriving DecidableEq, Repr

/-- Broadcast kinds of zero points (`brgemm_broadcast_t`). -/
inductive Broadcast
  | none
  | per_tensor
  | per_n
deriving DecidableEq, Repr

/-- Batch addressing modes (`brgemm_batch_kind_t`). -/
inductive BatchKind
  | addr
  | offs
  | strd
deriving DecidableEq, Repr

/-- The slice of the kernel descriptor (`brgemm_desc_t` plus its attributes)
that the generator logic embedded here reads.  Fields keep the source
names. -/
structure Desc where
  isa_impl : Isa
  btype : BatchKind
  dt_a : DataType
  dt_b : DataType
  dt_c : DataType
  dt_d : DataType
  is_int8 : Bool
  has_int8_vnni : Bool
  is_fp8 : Bool
  is_fp8_via_convert : Bool
  is_bf16 : Bool
  is_tmm : Bool
  alpha : ℚ
  beta : ℚ
  bd_block : Nat
  bdb_tail : Nat
  ld_block2 : Nat
  ldb_tail : Nat
  rd_block : Nat
  rd_step : Nat
  rdb : Nat
  rdb_tail : Nat
  embd_bcst : Bool
  with_wei_decomp : Bool
  with_wei_decomp_zero_points : Bool
  wei_decomp_zero_points_stride : Int
  with_src_dyn_quant : Bool
  with_bias : Bool
  with_scales : Bool
  with_dst_scales : Bool
  with_eltwise : Bool
  with_binary : Bool
  with_sum : Bool
  req_s8s8_compensation : Bool
  req_cal_comp_pads : Bool
  zp_type_a : Broadcast
  zp_type_b : Broadcast
  zp_type_c : Broadcast
  max_top_vpad : Nat
  max_bottom_vpad : Nat
  generate_skip_accumulation : Bool
  is_runtime_ldc : Bool
  is_runtime_ldd : Bool
deriving DecidableEq, Repr

/-- Accumulator-register budget computed in the constructor of
`jit_brgemm_kernel_t` (source lines 48–54): the platform register count
minus one reservation term per active numeric-format feature. -/
def max_effective_vregs (brg : Desc) : Int :=
  isa_num_vregs brg.isa_impl
    - (if brg.is_int8 && !brg.has_int8_vnni then 2
       else if brg.is_fp8_via_convert then 5 else 0)
    - (if brg.dt_b = DataType.nf4 ∧ brg.isa_impl = Isa.avx2 then 5 else 0)
    - (if brg.dt_b = DataType.nf4 ∧ brg.isa_impl ≠ Isa.avx2 then 1 else 0)
    - (if brg.with_wei_decomp_zero_points
          ∧ brg.wei_decomp_zero_points_stride = 0 then 1 else 0)
    - (if brg.with_src_dyn_quant then 2 else 0)
    - (if brg.with_src_dyn_quant ∧ brg.with_wei_decomp_zero_points
          ∧ brg.wei_decomp_zero_points_stride ≠ 0
       then (brg.ld_block2 : Int) else 0)

/-- Modelled from the spec: reservation of helper registers for the integer
dot product when native wide multiply-accumulate is unavailable, else for
fp8 emulation via conversion (claim C2's first clause). -/
def int8_or_fp8_reservation (brg : Desc) : Int :=
  if brg.is_int8 && !brg.has_int8_vnni then 2
  else if brg.is_fp8_via_convert then 5 else 0

/-- Modelled from the spec: reservation for the nf4 lookup tables, 5 on
avx2 and 1 on any other ISA (claim C2's second clause). -/
def nf4_reservation (brg : Desc) : Int :=
  if brg.dt_b = DataType.nf4 then
    (if brg.isa_impl = Isa.avx2 then 5 else 1)
  else 0

/-- Modelled from the spec: one register reserved when weight-decompression
zero points have stride 0 (claim C2's third clause). -/
def zp_stride0_reservation (brg : Desc) : Int :=
  if brg.with_wei_decomp_zero_points ∧ brg.wei_decomp_zero_points_stride = 0
  then 1 else 0

/-- Modelled from the spec: two registers reserved for dynamic source
quantization scratch (claim C2's fourth clause). -/
def dyn_quant_reservation (brg : Desc) : Int :=
  if brg.with_src_dyn_quant then 2 else 0

/-- Modelled from the spec: `ld_block2` further registers reserved when
dynamic source quantization is combined with per-column (nonzero-stride)
weight-decompression zero points (claim C2's fifth clause). -/
def dyn_quant_percol_zp_reservation (brg : Desc) : Int :=
  if brg.with_src_dyn_quant ∧ brg.with_wei_decomp_zero_points
      ∧ brg.wei_decomp_zero_points_stride ≠ 0
  then (brg.ld_block2 : Int) else 0

/-- Modelled from the spec: the claimed accumulator budget, platform
register count minus the sum of the feature reservations. -/
def claimed_vreg_budget (brg : Desc) : Int :=
  isa_num_vregs brg.isa_impl
    - (int8_or_fp8_reservation brg + nf4_reservation brg
        + zp_stride0_reservation brg + dyn_quant_reservation brg
        + dyn_quant_percol_zp_reservation brg)

/-- Accumulator register for cell `(bd, ld)` (source `accm`, lines
290–292): `Vmm(max_effective_vregs - 1 - (bd * ld_block + ld))`. -/
def accm (brg : Desc) (ld_block : Nat) (bd ld : Nat) : Int :=
  max_effective_vregs brg - 1 - ((bd * ld_block + ld : Nat) : Int)

/-- Temporary integer accumulator of the dynamic-quantization microkernel
(`vmm_accm_tmp` inside `gemm_microkernel_dyn_quant`, lines 2235–2238). -/
def vmm_accm_tmp_idx (brg : Desc) (ld_block : Nat) (bd ld : Nat) : Int :=
  max_effective_vregs brg - 1 - ((brg.ld_block2 * brg.bd_block : Nat) : Int)
    - (ld_block : Int) - ((bd * ld_block + ld : Nat) : Int)

/-- Temporary accumulator of the weight-decompression microkernel for
`bd_block == 1` (`accm_tmp` inside `gemm_microkernel`, lines 2522–2525). -/
def accm_tmp_idx (brg : Desc) (ld : Nat) : Int :=
  max_effective_vregs brg - 1 - 2 * ((brg.ld_block2 * brg.bd_block : Nat) : Int)
    - (ld : Int)

/-- `vpad_exist` as computed at the start of `generate` (lines 3306–3309). -/
def vpad_exist (brg : Desc) : Bool :=
  decide (0 < brg.max_top_vpad) || decide (0 < brg.max_bottom_vpad)

/-- `need_comp_pads` as computed in `generate` (lines 3310–3312); the C++
`IMPLICATION(a, b)` is `!a || b`. -/
def need_comp_pads (brg : Desc) : Bool :=
  (!(decide (brg.zp_type_a = Broadcast.none)) || brg.req_s8s8_compensation)
    && (vpad_exist brg || brg.req_cal_comp_pads)

/-- Whether any of the three zero-point kinds is configured
(`has_zero_points` in `store_accumulators`, lines 1658–1659). -/
def has_zero_points (brg : Desc) : Bool :=
  !(decide (brg.zp_type_a = Broadcast.none)
      && decide (brg.zp_type_b = Broadcast.none)
      && decide (brg.zp_type_c = Broadcast.none))

/-- `are_post_ops_applicable` (store_accumulators, lines 1660–1663). -/
def are_post_ops_applicable (brg : Desc) : Bool :=
  brg.with_eltwise || brg.with_binary || brg.with_scales || brg.with_bias
    || brg.with_sum || !(decide (brg.dt_d = brg.dt_c))
    || brg.req_s8s8_compensation || has_zero_points brg || brg.with_dst_scales

/-- `need_to_apply_alpha_beta` (store_accumulators, line 1664). -/
def need_to_apply_alpha_beta (brg : Desc) : Bool :=
  decide (brg.beta ≠ 0) || decide (brg.alpha ≠ 1)

/-- `need_generate_zp_a_compensation` (store_accumulators, lines
1665–1666). -/
def need_generate_zp_a_compensation (brg : Desc) : Bool :=
  brg.is_int8 && (brg.req_s8s8_compensation || has_zero_points brg)

/-- `alpha_or_beta_applicable` (lines 1340, 1610). -/
def alpha_or_beta_applicable (brg : Desc) : Bool :=
  decide (brg.alpha ≠ 1) || decide (brg.beta ≠ 0)

/-- `beta_uses_vadd` (lines 1341–1342, 1611–1612). -/
def beta_uses_vadd (brg : Desc) : Bool :=
  decide (brg.beta = 1) && (!brg.is_int8 || decide (brg.alpha = 1))

/-- `dt_requires_saturation` in `store_accumulators_without_post_ops`
(lines 1613–1614): int8 accumulators that were converted to f32 by
alpha/beta application must be saturate-converted back before the store
to C. -/
def dt_requires_saturation_no_po (brg : Desc) : Bool :=
  brg.is_int8 && !(!(alpha_or_beta_applicable brg) || beta_uses_vadd brg)

/-- `dt_requires_saturation` in `store_accumulators_apply_post_ops`
(lines 1435–1436): saturation before the conversion to a destination type
narrower than or equal to 32-bit integer. -/
def dt_requires_saturation_po (brg : Desc) : Bool :=
  decide (brg.dt_d = DataType.u8) || decide (brg.dt_d = DataType.s8)
    || decide (brg.dt_d = DataType.s32)

/-- Whether a post-ops injector is constructed (constructor line 63). -/
def postops_injector_present (brg : Desc) : Bool :=
  brg.with_eltwise || brg.with_binary || brg.with_sum

/-- Post-processing stages of the store pipeline, used to describe which
transformations a runtime invocation executes. -/
inductive Stage
  | compS
  | alphaBetaS
  | scalesS
  | biasS
  | postOpsS
  | dstScalesS
  | zpCS
  | satS
  | storeCs
  | storeDs
deriving DecidableEq, Repr

/-- Tile multiply-accumulate opcodes selectable by `tdpbxxd`
(`gemm_microkernel_amx`, lines 2031–2052). -/
inductive TileOp
  | tdpfp16ps
  | tdpbf16ps
  | tdpbuud
  | tdpbusd
  | tdpbsud
  | tdpbssd
deriving DecidableEq, Repr

/-- Abstract instructions of the generated stream.  Only the operations the
claims reason about are distinguished; post-processing sections that the
claims treat as opaque appear as `stage` markers.  `trap` is a runtime
error/guard instruction: the generator never emits one (all its error
handling is generation-time), which claim C8 makes precise. -/
inductive Instr
  | zeroAcc (reg : Int)
  | loadA (bd rd : Nat)
  | loadB (ld rd : Nat)
  | mac (reg : Int) (bd ld : Nat)
  | satCvt (reg : Int)
  | storeC (reg : Int) (bd ld : Nat)
  | stage (s : Stage)
  | cmpJne (vpadVal : Int)
  | jmpEnd
  | tileloadA (idx : Nat)
  | tileloadB (idx : Nat)
  | tdp (op : TileOp) (bdb ldb : Nat)
  | trap
deriving DecidableEq, Repr

/-- Vector-path `zero_accumulators` (lines 1055–1062): one `uni_vpxor` per
accumulator cell of the `(bd_block × ld_block2)` grid, each addressed
through `accm`. -/
def zero_accumulators_instrs (brg : Desc) (is_bdb_tail : Bool)
    (ld_block2 : Nat) : List Instr :=
  let bd_block := if is_bdb_tail then brg.bdb_tail else brg.bd_block
  (List.range bd_block).flatMap (fun bd =>
    (List.range ld_block2).map (fun ld =>
      Instr.zeroAcc (accm brg ld_block2 bd ld)))

/-- `store_accumulators_without_post_ops` (lines 1604–1652): an optional
saturate-convert sweep over the accumulator grid followed by one store to C
per cell, both addressed through `accm`. -/
def store_accumulators_without_post_ops_instrs (brg : Desc)
    (bd_block ld_block2 : Nat) : List Instr :=
  (if dt_requires_saturation_no_po brg then
    (List.range bd_block).flatMap (fun bd =>
      (List.range ld_block2).map (fun ld =>
        Instr.satCvt (accm brg ld_block2 bd ld)))
  else []) ++
  (List.range bd_block).flatMap (fun bd =>
    (List.range ld_block2).map (fun ld =>
      Instr.storeC (accm brg ld_block2 bd ld) bd ld))

/-- Stages executed by `store_accumulators_apply_post_ops`
(lines 1333–1519) in emission order: scale multiply, bias add, post-op
injector chain, destination scale, zero-point-C add, saturation, final
conversion and store to D. -/
def store_accumulators_apply_post_ops_stages (brg : Desc) : List Stage :=
  (if brg.with_scales then [Stage.scalesS] else []) ++
  (if brg.with_bias then [Stage.biasS] else []) ++
  (if postops_injector_present brg then [Stage.postOpsS] else []) ++
  (if brg.with_dst_scales then [Stage.dstScalesS] else []) ++
  (if !(decide (brg.zp_type_c = Broadcast.none)) then [Stage.zpCS] else []) ++
  (if dt_requires_saturation_po brg then [Stage.satS] else []) ++
  [Stage.storeDs]

/-- Stages executed by `store_accumulators_without_post_ops`
(lines 1604–1652): optional saturate-convert, then the store to C. -/
def store_accumulators_without_post_ops_stages (brg : Desc) : List Stage :=
  (if dt_requires_saturation_no_po brg then [Stage.satS] else []) ++
  [Stage.storeCs]

/-- Stages executed by one invocation of the vector-path
`store_accumulators` (lines 1838–1868) given the two runtime flags: the
runtime branch on `do_apply_comp` guards compensation, the branch on
`do_post_ops` selects between the post-op path and the plain store. -/
def store_accumulators_stages (brg : Desc)
    (do_post_ops do_apply_comp : Bool) : List Stage :=
  (if need_generate_zp_a_compensation brg && do_apply_comp
   then [Stage.compS] else []) ++
  (if need_to_apply_alpha_beta brg then [Stage.alphaBetaS] else []) ++
  (if are_post_ops_applicable brg && do_post_ops
   then store_accumulators_apply_post_ops_stages brg
   else store_accumulators_without_post_ops_stages brg)

/-- Emitted code of the vector-path `store_accumulators` with both runtime
branches flattened into the stream (compensation and post-op sections
abstracted to `stage` markers, the final plain store kept at instruction
granularity). -/
def store_accumulators_instr_list (brg : Desc) (is_bdb_tail : Bool)
    (ld_block2 : Nat) : List Instr :=
  let bd_block := if is_bdb_tail then brg.bdb_tail else brg.bd_block
  (if need_generate_zp_a_compensation brg then [Instr.stage Stage.compS]
   else []) ++
  (if need_to_apply_alpha_beta brg then [Instr.stage Stage.alphaBetaS]
   else []) ++
  (if are_post_ops_applicable brg then
    (store_accumulators_apply_post_ops_stages brg).map Instr.stage
  else []) ++
  store_accumulators_without_post_ops_instrs brg bd_block ld_block2

/-- `rd_loop` computed at the top of `gemm_microkernel`
(lines 2407–2417). -/
def rd_loop_count (brg : Desc) (is_rd_tail : Bool) : Nat :=
  if is_rd_tail then
    (if (brg.is_bf16 || brg.is_int8) && decide (brg.rdb_tail % brg.rd_step ≠ 0)
     then (brg.rdb_tail / brg.rd_step + 1) * brg.rd_step
     else brg.rdb_tail)
  else brg.rd_block

/-- `bd_b = nstl::max(0, vpad)` (line 2399): first non-padded row. -/
def bd_b (vpad : Int) : Int := max 0 vpad

/-- `bd_e = nstl::min(bd_block, bd_block + vpad)` (line 2400): one past the
last non-padded row. -/
def bd_e (bd_block : Nat) (vpad : Int) : Int :=
  min (bd_block : Int) ((bd_block : Int) + vpad)

/-- `is_valid_bd` (lines 2401–2402). -/
def is_valid_bd (brg : Desc) (bd_block : Nat) (vpad : Int) : Bool :=
  if need_comp_pads brg && !(decide (vpad = 0))
  then decide (bd_b vpad ≤ bd_e bd_block vpad)
  else decide (bd_b vpad < bd_e bd_block vpad)

/-- The rows visited by the microkernel accumulation loop
`for (bd = bd_b; bd < bd_e; bd++)` (lines 2799, 2506, 2702). -/
def microkernel_bd_rows (bd_block : Nat) (vpad : Int) : List Nat :=
  (List.range (bd_e bd_block vpad - bd_b vpad).toNat).map
    (fun i => (bd_b vpad).toNat + i)

/-- Register receiving the multiply-accumulate for cell `(bd, ld)` in the
microkernel body: the dynamic-quantization body targets its temporary
integer accumulators (line 2346), the weight-decompression body with
`bd_block == 1` targets `accm_tmp` (lines 2720–2722), every other body
targets `accm` directly (lines 2507, 2721, 2812). -/
def mac_target (brg : Desc) (ld_block2 bd ld : Nat) : Int :=
  if brg.with_src_dyn_quant then vmm_accm_tmp_idx brg ld_block2 bd ld
  else if brg.with_wei_decomp && decide (brg.bd_block = 1) then
    accm_tmp_idx brg ld
  else accm brg ld_block2 bd ld

/-- One `rd` step of the vector microkernel body (lines 2753–2820): load
the B block for every `ld`, then for every non-padded row broadcast A
(unless embedded broadcast is used) and issue one multiply-accumulate per
`ld`.  The per-format B decode arithmetic is modelled separately by the
pure decode functions below. -/
def gemm_rd_step_instrs (brg : Desc) (ld_block2 bd_block : Nat) (vpad : Int)
    (rd : Nat) : List Instr :=
  (List.range ld_block2).map (fun ld => Instr.loadB ld rd) ++
  (microkernel_bd_rows bd_block vpad).flatMap (fun bd =>
    (if brg.embd_bcst then [] else [Instr.loadA bd rd]) ++
    (List.range ld_block2).map (fun ld =>
      Instr.mac (mac_target brg ld_block2 bd ld) bd ld))

/-- Accumulation instructions emitted by one call of `gemm_microkernel`
(lines 2386–2822): nothing when `is_valid_bd` fails, otherwise one
`gemm_rd_step_instrs` block per `rd` step of the reduction block. -/
def gemm_microkernel_instrs (brg : Desc) (is_bdb_tail : Bool)
    (ld_block2 : Nat) (is_rd_tail : Bool) (vpad : Int) : List Instr :=
  let bd_block := if is_bdb_tail then brg.bdb_tail else brg.bd_block
  if is_valid_bd brg bd_block vpad then
    (List.range
        ((rd_loop_count brg is_rd_tail + brg.rd_step - 1) / brg.rd_step)
      ).flatMap (fun i =>
        gemm_rd_step_instrs brg ld_block2 bd_block vpad (i * brg.rd_step))
  else []

/-- One entry of the virtual-padding dispatch: the value compared against
the runtime padding register and the `real_vpad` the dispatched body is
specialized for. -/
structure VpadEntry where
  cmpVal : Int
  bodyVpad : Int
deriving DecidableEq, Repr

/-- The virtual-padding dispatch table built by `ldb_loop`
(lines 2998–3026): one compare-and-jump per `vpad` in
`[-max_bottom_vpad, max_top_vpad]`, except those skipped by the `continue`
statements; `real_vpad` adjustments for a partial last row block are
translated faithfully. -/
def vpad_dispatch_entries (brg : Desc)
    (check_top check_bottom is_bdb_tail : Bool) : List VpadEntry :=
  (List.range
      ((brg.max_top_vpad : Int) - (-(brg.max_bottom_vpad : Int)) + 1).toNat
    ).filterMap (fun i =>
      let vpad : Int := -(brg.max_bottom_vpad : Int) + i
      if !check_top && decide (0 < vpad) then none
      else if !check_bottom && decide (vpad < 0) then none
      else if check_bottom && decide (brg.bdb_tail ≠ 0) && decide (vpad < 0)
      then
        (if !is_bdb_tail then
          (if decide ((brg.bdb_tail : Int) < -vpad)
           then some ⟨vpad, vpad + (brg.bdb_tail : Int)⟩ else none)
         else
          (if decide ((brg.bdb_tail : Int) < -vpad) && need_comp_pads brg
              && !brg.req_cal_comp_pads
           then some ⟨vpad, -(brg.bdb_tail : Int)⟩ else some ⟨vpad, vpad⟩))
      else some ⟨vpad, vpad⟩)

/-- Body of the batch-step loop emitted once per `ld_loop_body` call
(lines 2845–2925): the full-block reduction loop repeated `rdb` times plus
the optional reduction tail (guarded by the same `is_valid_bd` check the
source performs at lines 2838–2843). -/
def ld_loop_body_instrs (brg : Desc) (is_bdb_tail : Bool) (ld_block2 : Nat)
    (vpad : Int) : List Instr :=
  if is_valid_bd brg (if is_bdb_tail then brg.bdb_tail else brg.bd_block)
      vpad then
    (List.range brg.rdb).flatMap (fun _ =>
      gemm_microkernel_instrs brg is_bdb_tail ld_block2 false vpad) ++
    (if decide (brg.rdb_tail ≠ 0) then
      gemm_microkernel_instrs brg is_bdb_tail ld_block2 true vpad
    else [])
  else []

/-- Interior of the BS loop (lines 2971–3032): when either padding check is
active, the dispatch table followed by the fall-through body for padding 0;
otherwise just the unpadded body. -/
def ldb_loop_bs_body_instrs (brg : Desc) (is_bdb_tail : Bool)
    (ld_block2 : Nat) (check_top check_bottom : Bool) : List Instr :=
  if check_top || check_bottom then
    (vpad_dispatch_entries brg check_top check_bottom is_bdb_tail).flatMap
      (fun e => Instr.cmpJne e.cmpVal ::
        (ld_loop_body_instrs brg is_bdb_tail ld_block2 e.bodyVpad
          ++ [Instr.jmpEnd])) ++
    ld_loop_body_instrs brg is_bdb_tail ld_block2 0
  else ld_loop_body_instrs brg is_bdb_tail ld_block2 0

/-- One iteration of the `ldb_loop` (lines 2932–3050): zero the
accumulators, then — only when `alpha ≠ 0` and accumulation is not skipped
(line 2945) — the batch-step accumulation body, then the store pipeline. -/
def ldb_loop_iteration_instrs (brg : Desc) (is_bdb_tail : Bool)
    (ld_block2 : Nat) (check_top check_bottom skip_accumulation : Bool) :
    List Instr :=
  zero_accumulators_instrs brg is_bdb_tail ld_block2 ++
  (if decide (brg.alpha ≠ 0) && !skip_accumulation then
    ldb_loop_bs_body_instrs brg is_bdb_tail ld_block2 check_top check_bottom
  else []) ++
  store_accumulators_instr_list brg is_bdb_tail ld_block2

/-- The `tdpbxxd` opcode selection of `gemm_microkernel_amx`
(lines 2031–2052).  The C++ `assert(!"...")` arms are generation-time
failures, modelled as `none`. -/
def tdpbxxd_sel (brg : Desc) : Option TileOp :=
  if brg.is_fp8 then
    (if brg.is_fp8_via_convert then some TileOp.tdpfp16ps else none)
  else if brg.dt_a = DataType.bf16 ∧ brg.dt_b = DataType.bf16 then
    some TileOp.tdpbf16ps
  else if brg.dt_a = DataType.f16 ∧ brg.dt_b = DataType.f16 then
    some TileOp.tdpfp16ps
  else if brg.dt_a = DataType.u8 ∧ brg.dt_b = DataType.u8 then
    some TileOp.tdpbuud
  else if brg.dt_a = DataType.u8 ∧ brg.dt_b = DataType.s8 then
    some TileOp.tdpbusd
  else if brg.dt_a = DataType.s8 ∧ brg.dt_b = DataType.u8 then
    some TileOp.tdpbsud
  else if brg.dt_a = DataType.s8 ∧ brg.dt_b = DataType.s8 then
    some TileOp.tdpbssd
  else none

/-- The element-type combinations for which the tile microkernel is
defined, stated as in the spec: fp8 pairs handled via conversion, matching
bf16/f16 pairs, and the four 8-bit integer sign combinations. -/
def amx_supported (brg : Desc) : Prop :=
  (brg.is_fp8 = true ∧ brg.is_fp8_via_convert = true)
    ∨ (brg.is_fp8 = false ∧
        (brg.dt_a, brg.dt_b) ∈
          ([(DataType.bf16, DataType.bf16), (DataType.f16, DataType.f16),
            (DataType.u8, DataType.u8), (DataType.u8, DataType.s8),
            (DataType.s8, DataType.u8), (DataType.s8, DataType.s8)] :
            List (DataType × DataType)))

/-- The `cvt2ps` conversion switch (lines 682–712): supported input types
convert, the fp8 types convert only through the emulation path, everything
else hits `assert(!"unsupported data type")`, modelled as `none`. -/
def cvt2ps_sel (t : DataType) (fp8_via_convert : Bool) : Option Unit :=
  match t with
  | DataType.f32 => some ()
  | DataType.s32 => some ()
  | DataType.bf16 => some ()
  | DataType.f16 => some ()
  | DataType.s8 => some ()
  | DataType.u8 => some ()
  | DataType.f8_e5m2 => if fp8_via_convert then some () else none
  | DataType.f8_e4m3 => if fp8_via_convert then some () else none
  | _ => none

/-- The input types `cvt2ps` documents as convertible, stated as in the
spec: the natively supported list plus the fp8 types when the conversion
emulation is configured. -/
def cvt2ps_supported (t : DataType) (fp8_via_convert : Bool) : Prop :=
  t ∈ ([DataType.f32, DataType.s32, DataType.bf16, DataType.f16,
        DataType.s8, DataType.u8] : List DataType)
    ∨ (fp8_via_convert = true
        ∧ (t = DataType.f8_e5m2 ∨ t = DataType.f8_e4m3))

/-- Generation of the tile microkernel (`gemm_microkernel_amx`,
lines 2028–2078) as an all-or-nothing `Option`: the loop nest of tile
loads and one tile multiply-accumulate per `(rdb, ldb, bdb)` is produced
only if the opcode selection succeeds; an unsupported combination aborts
the whole generation. -/
def gemm_microkernel_amx_gen (brg : Desc) (bd_block2 ld_block2 : Nat)
    (is_rd_tail : Bool) : Option (List Instr) :=
  match tdpbxxd_sel brg with
  | none => none
  | some op =>
    some ((List.range (if is_rd_tail then 1 else brg.rdb)).flatMap (fun _ =>
      (List.range bd_block2).map (fun bdb => Instr.tileloadA bdb) ++
      (List.range ld_block2).flatMap (fun ldb =>
        Instr.tileloadB ldb ::
        (List.range bd_block2).map (fun bdb => Instr.tdp op bdb ldb))))

/-- Signed 16-bit saturation, the behaviour of `vpmaddubsw` on a pair sum
that overflows a signed word. -/
def sat16 (x : Int) : Int := max (-32768) (min 32767 x)

/-- Two's-complement wrap-around of a 32-bit lane. -/
def wrap32 (x : Int) : Int := (x + 2 ^ 31) % 2 ^ 32 - 2 ^ 31

/-- One 32-bit lane of the VNNI path of `dot_product` (line 2091):
`vpdpbusd` accumulates the four unsigned×signed byte products without
intermediate saturation. -/
def vpdpbusd_lane (acc a0 a1 a2 a3 b0 b1 b2 b3 : Int) : Int :=
  wrap32 (acc + (a0 * b0 + a1 * b1 + a2 * b2 + a3 * b3))

/-- One 32-bit lane of the non-VNNI path of `dot_product`
(lines 2095–2098): `vpmaddubsw` produces the two pairwise sums with signed
16-bit saturation, `vpmaddwd` against the all-ones words adds them, and
`vpaddd` accumulates. -/
def int8_non_vnni_dot_lane (acc a0 a1 a2 a3 b0 b1 b2 b3 : Int) : Int :=
  wrap32 (acc + (sat16 (a0 * b0 + a1 * b1) + sat16 (a2 * b2 + a3 * b3)))

/-- Packing of two 4-bit codes into one byte, high nibble first: the layout
the u4/s4/nf4 decode sequences recover values from. -/
def pack_u4 (hi lo : Nat) : Nat := 16 * hi + lo

/-- The u4 decode of `gemm_microkernel` (lines 2636–2644): after
`uni_vpmovzxbd` the dword holds the zero-extended byte; even reduction
positions shift right by 4, odd ones shift left by 28 and logically right
by 28 within the 32-bit lane. -/
def u4_decode (b : Nat) (rd_even : Bool) : Nat :=
  if rd_even then (b % 2 ^ 32) >>> 4
  else ((b <<< 28) % 2 ^ 32) >>> 28

/-- Sign extension of a byte, the effect of `uni_vpmovsxbd`. -/
def sext8 (b : Nat) : Int :=
  if b < 128 then (b : Int) else (b : Int) - 256

/-- The s4 decode of `gemm_microkernel` (lines 2645–2654): sign-extend the
byte, then arithmetic-shift right by 4 for even reduction positions, or
shift left by 28 (wrapping in the 32-bit lane) and arithmetic-shift right
by 28 for odd ones.  An arithmetic right shift by `k` is floor division by
`2 ^ k`. -/
def s4_decode (b : Nat) (rd_even : Bool) : Int :=
  if rd_even then Int.fdiv (sext8 b) (2 ^ 4)
  else Int.fdiv (wrap32 (sext8 b * 2 ^ 28)) (2 ^ 28)

/-- Value of a signed 4-bit code. -/
def s4_value (n : Nat) : Int := if n < 8 then (n : Int) else (n : Int) - 16

/-- The nf4 codebook (`lookup`, lines 2571–2587).  The sixteen float
constants of the source are decimal literals with at most 17 fractional
digits; they are represented here exactly, scaled by `10 ^ 17`. -/
def nf4_lookup : Nat → Int
  | 0 => -100000000000000000
  | 1 => -69619280099868770
  | 2 => -52507305145263670
  | 3 => -39491748809814453
  | 4 => -28444138169288635
  | 5 => -18477343022823334
  | 6 => -9105003625154495
  | 7 => 0
  | 8 => 7958029955625534
  | 9 => 16093020141124725
  | 10 => 24611230194568634
  | 11 => 33791524171829224
  | 12 => 44070982933044434
  | 13 => 56261700391769410
  | 14 => 72295683622360230
  | _ => 100000000000000000

/-- The avx512 nf4 decode (line 2673): one `vpermd` over the 16-entry
table; `vpermd` on a 16-dword register uses the low 4 bits of each
index. -/
def nf4_decode_zmm (c : Nat) : Int := nf4_lookup (c % 16)

/-- The avx2 nf4 decode (lines 2664–2671): compare the code against 7,
permute the low half table with the code (low 3 index bits), permute the
high half table with the code minus 8, and blend on the comparison mask. -/
def nf4_decode_avx2 (c : Nat) : Int :=
  if 7 < c then nf4_lookup (8 + (c - 8) % 8) else nf4_lookup (c % 8)

/-- Re-encoding of a codebook value: the index of the value in the nf4
codebook (16 when the value is not a codebook entry). -/
def nf4_encode (v : Int) : Nat :=
  ((List.range 16).filter (fun i => nf4_lookup i == v)).headD 16

/-- The runtime boolean flags of the invocation parameter block. -/
inductive BoolFlag
  | doPostOps
  | skipAccm
  | doComp
deriving DecidableEq, Repr

/-- Fields of `brgemm_kernel_params_t` the generated kernel reads. -/
inductive ParamField
  | ptr_A
  | ptr_B
  | ptr_C
  | ptr_D
  | batch
  | BS
  | ptr_buf
  | ptr_bias
  | ptr_scales
  | a_zp_compensations
  | b_zp_compensations
  | c_zp_values
  | ptr_wei_scales
  | ptr_wei_zero_points
  | ic
  | ptr_src_scales
  | ptr_dst_scales
  | dynamic_LDC
  | dynamic_LDD
  | do_post_ops
  | skip_accm
  | zp_a_val
  | do_apply_comp
deriving DecidableEq, Repr

/-- The parameter-block fields loaded by `read_params` (lines 936–1041),
in source order.  The final four loads — `do_post_ops`, `skip_accm`,
`zp_a_val`, `do_apply_comp` — are unconditional. -/
def read_params_fields (brg : Desc) : List ParamField :=
  (if brg.btype = BatchKind.addr then [ParamField.batch]
   else [ParamField.ptr_A, ParamField.ptr_B, ParamField.batch]) ++
  [ParamField.ptr_C, ParamField.ptr_D, ParamField.BS] ++
  (if brg.is_tmm || brg.req_s8s8_compensation then [ParamField.ptr_buf]
   else []) ++
  (if brg.with_bias then [ParamField.ptr_bias] else []) ++
  (if brg.with_scales then [ParamField.ptr_scales] else []) ++
  (if !(decide (brg.zp_type_a = Broadcast.none)) then
    [ParamField.a_zp_compensations] else []) ++
  (if !(decide (brg.zp_type_b = Broadcast.none)) then
    [ParamField.b_zp_compensations] else []) ++
  (if brg.with_wei_decomp then
    [ParamField.ptr_wei_scales, ParamField.ptr_wei_zero_points,
      ParamField.ic] else []) ++
  (if brg.with_src_dyn_quant then [ParamField.ptr_src_scales] else []) ++
  (if !(decide (brg.zp_type_c = Broadcast.none)) then
    [ParamField.c_zp_values] else []) ++
  (if brg.with_dst_scales then [ParamField.ptr_dst_scales] else []) ++
  (if brg.is_runtime_ldc then [ParamField.dynamic_LDC] else []) ++
  (if brg.is_runtime_ldd then [ParamField.dynamic_LDD] else []) ++
  [ParamField.do_post_ops, ParamField.skip_accm, ParamField.zp_a_val,
    ParamField.do_apply_comp]

/-- The runtime boolean flags `read_params` loads from the parameter block
(lines 1030–1040, unconditional for every descriptor). -/
def runtime_bool_flags_read (_brg : Desc) : List BoolFlag :=
  [BoolFlag.doPostOps, BoolFlag.skipAccm, BoolFlag.doComp]

/-- The runtime boolean flags the generated kernel branches on:
`skip_accm` in `bdb_loop` when skip-accumulation support is generated
(lines 3283–3287), `do_post_ops` and `do_apply_comp` in
`store_accumulators` (lines 1803–1834, 1841–1859). -/
def runtime_bool_flags_branched (brg : Desc) : List BoolFlag :=
  (if brg.generate_skip_accumulation then [BoolFlag.skipAccm] else []) ++
  (if are_post_ops_applicable brg then [BoolFlag.doPostOps] else []) ++
  (if need_generate_zp_a_compensation brg then [BoolFlag.doComp] else [])

/-- Environment giving the data-dependent effect of the abstracted
instructions: `contrib bd ld` is the value a multiply-accumulate adds into
the accumulator of cell `(bd, ld)`, `satFn` the saturate-convert map. -/
structure MacEnv where
  contrib : Nat → Nat → ℚ
  satFn : ℚ → ℚ

/-- Effect of one instruction on the vector-register file (only
register-writing instructions change it). -/
def stepAcc (env : MacEnv) (st : Int → ℚ) : Instr → (Int → ℚ)
  | Instr.zeroAcc r => Function.update st r 0
  | Instr.mac r bd ld => Function.update st r (st r + env.contrib bd ld)
  | Instr.satCvt r => Function.update st r (env.satFn (st r))
  | _ => st

/-- Register file after executing an instruction list. -/
def regsAfter (env : MacEnv) (l : List Instr) (st : Int → ℚ) : Int → ℚ :=
  l.foldl (stepAcc env) st

/-- A plain f32 AVX-512 descriptor used as the base of the concrete
configurations below. -/
def descBase : Desc where
  isa_impl := Isa.avx512_core
  btype := BatchKind.addr
  dt_a := DataType.f32
  dt_b := DataType.f32
  dt_c := DataType.f32
  dt_d := DataType.f32
  is_int8 := false
  has_int8_vnni := false
  is_fp8 := false
  is_fp8_via_convert := false
  is_bf16 := false
  is_tmm := false
  alpha := 1
  beta := 0
  bd_block := 4
  bdb_tail := 0
  ld_block2 := 2
  ldb_tail := 0
  rd_block := 4
  rd_step := 1
  rdb := 1
  rdb_tail := 0
  embd_bcst := false
  with_wei_decomp := false
  with_wei_decomp_zero_points := false
  wei_decomp_zero_points_stride := 0
  with_src_dyn_quant := false
  with_bias := false
  with_scales := false
  with_dst_scales := false
  with_eltwise := false
  with_binary := false
  with_sum := false
  req_s8s8_compensation := false
  req_cal_comp_pads := false
  zp_type_a := Broadcast.none
  zp_type_b := Broadcast.none
  zp_type_c := Broadcast.none
  max_top_vpad := 0
  max_bottom_vpad := 0
  generate_skip_accumulation := false
  is_runtime_ldc := false
  is_runtime_ldd := false

/-- An int8 descriptor with `alpha = 2`, an eltwise post-op chain and an
s8 destination: the configuration exhibiting saturation on the
`do_post_ops = false` path. -/
def descC5 : Desc :=
  { descBase with
      dt_a := DataType.u8, dt_b := DataType.s8, dt_c := DataType.s32,
      dt_d := DataType.s8, is_int8 := true, has_int8_vnni := true,
      alpha := 2, with_eltwise := true }

/-- A descriptor with runtime skip-accumulation support generated. -/
def descC6 : Desc :=
  { descBase with generate_skip_accumulation := true }

/-- A bf16 tile-mode descriptor whose tile opcode selection succeeds. -/
def descC8 : Desc :=
  { descBase with
      dt_a := DataType.bf16, dt_b := DataType.bf16, is_bf16 := true,
      is_tmm := true, isa_impl := Isa.avx512_core_amx }

/-- A descriptor with `alpha = 0`. -/
def descC10 : Desc :=
  { descBase with alpha := 0 }

/-- A descriptor declaring one row of possible top and bottom virtual
padding and no row-block tail. -/
def descC4 : Desc :=
  { descBase with max_top_vpad := 1, max_bottom_vpad := 1 }

theorem sat16_of_bounds {x : Int} (h1 : -32768 ≤ x) (h2 : x ≤ 32767) :
    sat16 x = x := by
  unfold sat16
  omega

/-- Claim C2: for every descriptor, the accumulator register budget
`max_effective_vregs` equals the platform vector-register count minus the
reservations for the active numeric-format features — 2 for int8 without
native VNNI else 5 for fp8 via conversion else 0, plus 5 for nf4 on avx2
and 1 for nf4 elsewhere, plus 1 for stride-0 weight-decompression zero
points, plus 2 for dynamic source quantization, plus `ld_block2` more when
dynamic source quantization meets per-column weight-decompression zero
points. -/
theorem C2_max_effective_vregs_formula (brg : Desc) :
    max_effective_vregs brg = claimed_vreg_budget brg := by
  have hnf : (if brg.dt_b = DataType.nf4 ∧ brg.isa_impl = Isa.avx2
          then (5 : Int) else 0)
        + (if brg.dt_b = DataType.nf4 ∧ brg.isa_impl ≠ Isa.avx2
          then (1 : Int) else 0)
      = nf4_reservation brg := by
    unfold nf4_reservation
    by_cases h1 : brg.dt_b = DataType.nf4 <;>
      by_cases h2 : brg.isa_impl = Isa.avx2 <;> simp [h1, h2]
  unfold max_effective_vregs claimed_vreg_budget
  rw [← hnf]
  unfold int8_or_fp8_reservation zp_stride0_reservation
    dyn_quant_reservation dyn_quant_percol_zp_reservation
  ring

/-- Claim C9 counterexample: on the byte group `a = (255, 255, 0, 0)`,
`b = (127, 127, 0, 0)` with zero accumulator, the decomposed
`vpmaddubsw`/`vpmaddwd`/`vpaddd` sequence yields 32767 (the first pairwise
sum saturates in 16 bits) while `vpdpbusd` yields 64770, so the two paths
are not equal on every operand pair. -/
theorem C9_counterexample_int8_dot_product :
    int8_non_vnni_dot_lane 0 255 255 0 0 127 127 0 0
      ≠ vpdpbusd_lane 0 255 255 0 0 127 127 0 0 := by
  decide

/-- Claim C9 (amended): the decomposed non-VNNI int8 dot-product sequence
computes the same lane result as `vpdpbusd` whenever both pairwise
products sums fit in a signed 16-bit word, i.e. whenever the intermediate
`vpmaddubsw` saturation does not trigger. -/
theorem C9_amended_int8_dot_product (acc a0 a1 a2 a3 b0 b1 b2 b3 : Int)
    (h1 : -32768 ≤ a0 * b0 + a1 * b1) (h2 : a0 * b0 + a1 * b1 ≤ 32767)
    (h3 : -32768 ≤ a2 * b2 + a3 * b3) (h4 : a2 * b2 + a3 * b3 ≤ 32767) :
    int8_non_vnni_dot_lane acc a0 a1 a2 a3 b0 b1 b2 b3
      = vpdpbusd_lane acc a0 a1 a2 a3 b0 b1 b2 b3 := by
  unfold int8_non_vnni_dot_lane vpdpbusd_lane
  rw [sat16_of_bounds h1 h2, sat16_of_bounds h3 h4]
  ring_nf

/-- Witness for the amended claim C9 at a concrete operand group. -/
theorem C9_amended_int8_dot_product_witness :
    int8_non_vnni_dot_lane 3 1 2 3 4 5 6 7 8
      = vpdpbusd_lane 3 1 2 3 4 5 6 7 8 :=
  C9_amended_int8_dot_product 3 1 2 3 4 5 6 7 8
    (by decide) (by decide) (by decide) (by decide)

set_option maxRecDepth 100000 in
set_option maxHeartbeats 2000000 in
/-- Claim C7: for every packed pair of 4-bit codes, the u4 shift-and-mask
sequence recovers the unsigned nibbles at even and odd reduction
positions, the s4 sequence recovers the signed nibbles, re-packing the
decoded u4 and s4 nibbles reproduces the original byte, and the nf4
lookup-table permutation (both the avx512 single-`vpermd` path and the
avx2 two-table blend path) maps every code to exactly its codebook value,
with re-encoding a decoded value giving back the code. -/
theorem C7_low_bit_decode_roundtrip :
    (∀ hi, hi < 16 → ∀ lo, lo < 16 →
      u4_decode (pack_u4 hi lo) true = hi ∧
      u4_decode (pack_u4 hi lo) false = lo ∧
      s4_decode (pack_u4 hi lo) true = s4_value hi ∧
      s4_decode (pack_u4 hi lo) false = s4_value lo) ∧
    (∀ b, b < 256 →
      pack_u4 (u4_decode b true) (u4_decode b false) = b ∧
      pack_u4 (s4_decode b true % 16).toNat (s4_decode b false % 16).toNat
        = b) ∧
    (∀ c, c < 16 →
      nf4_decode_zmm c = nf4_lookup c ∧
      nf4_decode_avx2 c = nf4_lookup c ∧
      nf4_encode (nf4_decode_zmm c) = c) := by
  refine ⟨by decide, by decide, by decide⟩

/-- Witness for claim C7 at concrete codes. -/
theorem C7_low_bit_decode_roundtrip_witness :
    u4_decode (pack_u4 5 12) true = 5 ∧
    s4_decode (pack_u4 9 3) true = s4_value 9 ∧
    nf4_encode (nf4_decode_avx2 11) = 11 := by
  refine ⟨(C7_low_bit_decode_roundtrip.1 5 (by decide) 12 (by decide)).1,
    (C7_low_bit_decode_roundtrip.1 9 (by decide) 3 (by decide)).2.2.1, ?_⟩
  have h := (C7_low_bit_decode_roundtrip.2.2 11 (by decide))
  rw [h.2.1, ← h.1, h.2.2]

theorem dt_requires_saturation_no_po_iff (brg : Desc) :
    dt_requires_saturation_no_po brg = true ↔
      (brg.is_int8 = true ∧ (brg.alpha ≠ 1 ∨ brg.beta ≠ 0)
        ∧ ¬(brg.beta = 1 ∧ (brg.is_int8 = true → brg.alpha = 1))) := by
  unfold dt_requires_saturation_no_po alpha_or_beta_applicable beta_uses_vadd
  cases hI : brg.is_int8
  · simp [hI]
  · simp [hI]
    tauto

theorem store_accumulators_stages_no_post_ops (brg : Desc) (dc : Bool) :
    store_accumulators_stages brg false dc
      = (if need_generate_zp_a_compensation brg && dc then [Stage.compS]
         else []) ++
        (if need_to_apply_alpha_beta brg then [Stage.alphaBetaS] else []) ++
        store_accumulators_without_post_ops_stages brg := by
  simp [store_accumulators_stages]

/-- Claim C5 counterexample: for the int8 descriptor `descC5` (eltwise
post-ops configured, `alpha = 2`, s8 destination), the invocation with
`do_post_ops = false` still executes a saturate-convert of the
accumulators (to the destination integer range) before the store to C, so
the output is not free of saturation/clamp as the claim states. -/
theorem C5_counterexample_post_op_toggle :
    Stage.satS ∈ store_accumulators_stages descC5 false true := by
  decide

/-- Claim C5 (amended): with `do_post_ops = false` the invocation executes
no post-op chain and no store to D — only compensation (when enabled and
requested), alpha/beta application, and the plain store to C — and it
saturates exactly when the kernel is int8 and alpha/beta application
converted the accumulators to f32 (`alpha ≠ 1`, or `beta` neither 0 nor
usable as a direct integer add); with `do_apply_compensation = false` the
compensation stage is omitted even when configured. -/
theorem C5_amended_post_op_toggle (brg : Desc) (dp dc : Bool) :
    Stage.postOpsS ∉ store_accumulators_stages brg false dc ∧
    Stage.storeDs ∉ store_accumulators_stages brg false dc ∧
    (Stage.satS ∈ store_accumulators_stages brg false dc ↔
      (brg.is_int8 = true ∧ (brg.alpha ≠ 1 ∨ brg.beta ≠ 0)
        ∧ ¬(brg.beta = 1 ∧ (brg.is_int8 = true → brg.alpha = 1)))) ∧
    Stage.compS ∉ store_accumulators_stages brg dp false := by
  refine ⟨?_, ?_, ?_, ?_⟩
  · rw [store_accumulators_stages_no_post_ops]
    unfold store_accumulators_without_post_ops_stages
    split_ifs <;> simp
  · rw [store_accumulators_stages_no_post_ops]
    unfold store_accumulators_without_post_ops_stages
    split_ifs <;> simp
  · rw [store_accumulators_stages_no_post_ops, ← dt_requires_saturation_no_po_iff]
    unfold store_accumulators_without_post_ops_stages
    split_ifs <;> simp_all
  · unfold store_accumulators_stages
      store_accumulators_apply_post_ops_stages
      store_accumulators_without_post_ops_stages
    split_ifs <;> simp_all

/-- Claim C6 counterexample: for a descriptor with
`generate_skip_accumulation` set, the kernel reads and branches on a third
runtime boolean flag, `skip_accm`, distinct from `do_post_ops` and
`do_apply_comp`. -/
theorem C6_counterexample_runtime_flags :
    BoolFlag.skipAccm ∈ runtime_bool_flags_branched descC6 ∧
    BoolFlag.skipAccm ≠ BoolFlag.doPostOps ∧
    BoolFlag.skipAccm ≠ BoolFlag.doComp ∧
    ParamField.skip_accm ∈ read_params_fields descC6 := by
  decide

/-- Claim C6 (amended): the invocation parameter block supplies exactly
three runtime boolean flags — `do_post_ops`, `skip_accm`,
`do_apply_comp` — plus the integer `zp_a_val`; every runtime boolean flag
the generated kernel branches on is one of those three, and all of them
(with `zp_a_val`) are read by `read_params` for every descriptor. -/
theorem C6_amended_runtime_flags (brg : Desc) :
    runtime_bool_flags_read brg
      = [BoolFlag.doPostOps, BoolFlag.skipAccm, BoolFlag.doComp] ∧
    (∀ f ∈ runtime_bool_flags_branched brg,
        f ∈ runtime_bool_flags_read brg) ∧
    ParamField.do_post_ops ∈ read_params_fields brg ∧
    ParamField.skip_accm ∈ read_params_fields brg ∧
    ParamField.zp_a_val ∈ read_params_fields brg ∧
    ParamField.do_apply_comp ∈ read_params_fields brg := by
  refine ⟨rfl, ?_, ?_, ?_, ?_, ?_⟩
  · intro f hf
    unfold runtime_bool_flags_branched at hf
    unfold runtime_bool_flags_read
    rcases List.mem_append.1 hf with h | h
    · rcases List.mem_append.1 h with h | h <;> (split at h <;> simp_all)
    · split at h <;> simp_all
  all_goals (unfold read_params_fields; simp)

theorem mem_zero_accumulators_instrs (brg : Desc) (ibt : Bool) (L : Nat)
    (i : Instr) :
    i ∈ zero_accumulators_instrs brg ibt L ↔
      ∃ bd ld, bd < (if ibt then brg.bdb_tail else brg.bd_block) ∧ ld < L ∧
        i = Instr.zeroAcc (accm brg L bd ld) := by
  unfold zero_accumulators_instrs
  simp only [List.mem_flatMap, List.mem_map, List.mem_range]
  constructor
  · rintro ⟨bd, hbd, ld, hld, rfl⟩
    exact ⟨bd, ld, hbd, hld, rfl⟩
  · rintro ⟨bd, ld, hbd, hld, rfl⟩
    exact ⟨bd, hbd, ld, hld, rfl⟩

theorem mem_store_without_post_ops_instrs (brg : Desc) (B L : Nat)
    (i : Instr) :
    i ∈ store_accumulators_without_post_ops_instrs brg B L ↔
      ((dt_requires_saturation_no_po brg = true ∧
        ∃ bd ld, bd < B ∧ ld < L ∧ i = Instr.satCvt (accm brg L bd ld)) ∨
       (∃ bd ld, bd < B ∧ ld < L ∧
        i = Instr.storeC (accm brg L bd ld) bd ld)) := by
  unfold store_accumulators_without_post_ops_instrs
  rcases hs : dt_requires_saturation_no_po brg with _ | _ <;>
    simp [hs, List.mem_flatMap] <;> aesop

theorem mem_microkernel_bd_rows (B : Nat) (vpad : Int) (bd : Nat) :
    bd ∈ microkernel_bd_rows B vpad ↔
      (bd_b vpad ≤ (bd : Int) ∧ (bd : Int) < bd_e B vpad) := by
  unfold microkernel_bd_rows bd_b bd_e
  simp only [List.mem_map, List.mem_range]
  rcases le_total vpad 0 with hv | hv
  · rw [max_eq_left hv, min_eq_right (by omega)]
    constructor
    · rintro ⟨i, hi, rfl⟩
      omega
    · intro ⟨h1, h2⟩
      exact ⟨bd, by omega, by omega⟩
  · rw [max_eq_right hv, min_eq_left (by omega)]
    constructor
    · rintro ⟨i, hi, rfl⟩
      omega
    · intro ⟨h1, h2⟩
      exact ⟨bd - vpad.toNat, by omega, by omega⟩

theorem mem_gemm_rd_step_instrs (brg : Desc) (L B : Nat) (vpad : Int)
    (rd : Nat) (i : Instr) :
    i ∈ gemm_rd_step_instrs brg L B vpad rd ↔
      ((∃ ld, ld < L ∧ i = Instr.loadB ld rd) ∨
       (∃ bd, bd ∈ microkernel_bd_rows B vpad ∧
        ((brg.embd_bcst = false ∧ i = Instr.loadA bd rd) ∨
         (∃ ld, ld < L ∧ i = Instr.mac (mac_target brg L bd ld) bd ld)))) := by
  unfold gemm_rd_step_instrs
  rcases he : brg.embd_bcst with _ | _ <;>
    simp [he, List.mem_flatMap, List.mem_append] <;> aesop

theorem mem_gemm_microkernel_instrs (brg : Desc) (ibt : Bool) (L : Nat)
    (irt : Bool) (vpad : Int) (i : Instr) :
    i ∈ gemm_microkernel_instrs brg ibt L irt vpad ↔
      (is_valid_bd brg (if ibt then brg.bdb_tail else brg.bd_block) vpad
          = true ∧
       ∃ k, k < (rd_loop_count brg irt + brg.rd_step - 1) / brg.rd_step ∧
        i ∈ gemm_rd_step_instrs brg L
              (if ibt then brg.bdb_tail else brg.bd_block) vpad
              (k * brg.rd_step)) := by
  unfold gemm_microkernel_instrs
  rcases hv : is_valid_bd brg (if ibt then brg.bdb_tail else brg.bd_block)
      vpad with _ | _
  · simp [hv]
  · simp only [hv, if_true, List.mem_flatMap, List.mem_range, true_and]

theorem mac_target_eq_accm (brg : Desc) (L bd ld : Nat)
    (hdq : brg.with_src_dyn_quant = false)
    (hwd : brg.with_wei_decomp = true → brg.bd_block ≠ 1) :
    mac_target brg L bd ld = accm brg L bd ld := by
  unfold mac_target
  rw [hdq]
  simp only [Bool.false_eq_true, if_false]
  rcases hw : brg.with_wei_decomp with _ | _
  · simp
  · have h1 := hwd hw
    simp [h1]

theorem accm_grid_inj (brg : Desc) (L : Nat) {bd ld bd' ld' : Nat}
    (h : ld < L) (h' : ld' < L)
    (e : accm brg L bd ld = accm brg L bd' ld') : bd = bd' ∧ ld = ld' := by
  unfold accm at e
  have hL : 0 < L := Nat.lt_of_le_of_lt (Nat.zero_le ld) h
  have e2 : bd * L + ld = bd' * L + ld' := by omega
  have t1 : (bd * L + ld) / L = bd := by
    rw [Nat.add_comm, Nat.add_mul_div_right ld bd hL, Nat.div_eq_of_lt h,
      Nat.zero_add]
  have t2 : (bd' * L + ld') / L = bd' := by
    rw [Nat.add_comm, Nat.add_mul_div_right ld' bd' hL, Nat.div_eq_of_lt h',
      Nat.zero_add]
  have hbd : bd = bd' := by rw [← t1, ← t2, e2]
  subst hbd
  exact ⟨rfl, by omega⟩

/-- Claim C3: for a fixed descriptor, the accumulator cell `(bd, ld)` maps
to the one physical register
`Vmm(max_effective_vregs - 1 - (bd * ld_block2 + ld))`: `accm` is exactly
that function, `zero_accumulators` zeroes precisely that register for the
cell, every multiply-accumulate of the vector microkernel (outside the
dynamic-quantization and single-row weight-decompression bodies, which use
their own fixed temporaries) and every store of
`store_accumulators_without_post_ops` address it, and the mapping is
injective on the accumulator grid, so partial sums accumulate in place
across the whole reduction loop. -/
theorem C3_accumulator_register_stability (brg : Desc)
    (is_bdb_tail is_rd_tail : Bool) (ld_block2 : Nat) (vpad : Int)
    (bd ld : Nat)
    (hdq : brg.with_src_dyn_quant = false)
    (hwd : brg.with_wei_decomp = true → brg.bd_block ≠ 1)
    (hbd : bd < (if is_bdb_tail then brg.bdb_tail else brg.bd_block))
    (hld : ld < ld_block2) :
    accm brg ld_block2 bd ld
      = max_effective_vregs brg - 1 - ((bd * ld_block2 + ld : Nat) : Int) ∧
    Instr.zeroAcc (accm brg ld_block2 bd ld)
      ∈ zero_accumulators_instrs brg is_bdb_tail ld_block2 ∧
    (∀ r bd' ld', Instr.mac r bd' ld'
        ∈ gemm_microkernel_instrs brg is_bdb_tail ld_block2 is_rd_tail vpad
      → r = accm brg ld_block2 bd' ld') ∧
    (∀ r bd' ld', Instr.storeC r bd' ld'
        ∈ store_accumulators_without_post_ops_instrs brg
            (if is_bdb_tail then brg.bdb_tail else brg.bd_block) ld_block2
      → r = accm brg ld_block2 bd' ld') ∧
    (∀ bd' ld', bd' < (if is_bdb_tail then brg.bdb_tail else brg.bd_block)
      → ld' < ld_block2
      → accm brg ld_block2 bd' ld' = accm brg ld_block2 bd ld
      → bd' = bd ∧ ld' = ld) := by
  refine ⟨rfl, ?_, ?_, ?_, ?_⟩
  · exact (mem_zero_accumulators_instrs brg is_bdb_tail ld_block2 _).2
      ⟨bd, ld, hbd, hld, rfl⟩
  · intro r bd' ld' hmem
    rcases (mem_gemm_microkernel_instrs brg is_bdb_tail ld_block2 is_rd_tail
        vpad _).1 hmem with ⟨_, k, _, hstep⟩
    rcases (mem_gemm_rd_step_instrs brg ld_block2 _ vpad _ _).1 hstep with
      (⟨_, _, heq⟩ | ⟨bd0, _, (⟨_, heq⟩ | ⟨ld0, hld0, heq⟩)⟩)
    · cases heq
    · cases heq
    · cases heq
      exact mac_target_eq_accm brg ld_block2 bd' ld' hdq hwd
  · intro r bd' ld' hmem
    rcases (mem_store_without_post_ops_instrs brg _ ld_block2 _).1 hmem with
      (⟨_, _, _, _, _, heq⟩ | ⟨bd0, ld0, _, _, heq⟩)
    · cases heq
    · cases heq
      rfl
  · intro bd' ld' _ hld' he
    exact accm_grid_inj brg ld_block2 hld' hld he

/-- Witness for claim C3 on the base descriptor at cell `(1, 1)`. -/
theorem C3_accumulator_register_stability_witness :
    Instr.zeroAcc (accm descBase 2 1 1)
      ∈ zero_accumulators_instrs descBase false 2 :=
  (C3_accumulator_register_stability descBase false false 2 0 1 1
    (by decide) (by intro h; cases h) (by decide) (by decide)).2.1

theorem vpad_dispatch_entries_no_tail (brg : Desc) (ibt : Bool)
    (htail : brg.bdb_tail = 0) (e : VpadEntry) :
    e ∈ vpad_dispatch_entries brg true true ibt ↔
      (-(brg.max_bottom_vpad : Int) ≤ e.cmpVal
        ∧ e.cmpVal ≤ (brg.max_top_vpad : Int)
        ∧ e.bodyVpad = e.cmpVal) := by
  obtain ⟨a, b⟩ := e
  have hd : (decide (brg.bdb_tail ≠ 0)) = false := by simp [htail]
  unfold vpad_dispatch_entries
  simp only [hd, List.mem_filterMap, List.mem_range, Bool.not_true,
    Bool.false_and, Bool.and_false, Bool.true_and, Bool.false_eq_true,
    if_false, Option.some.injEq, VpadEntry.mk.injEq]
  constructor
  · rintro ⟨x, hx, h1, h2⟩
    simp only [List.pure_def, List.bind_eq_flatMap, List.mem_flatMap,
      List.mem_range, List.mem_singleton] at hx
    rcases hx with ⟨i, hi, rfl⟩
    refine ⟨by omega, by omega, by omega⟩
  · rintro ⟨h1, h2, h3⟩
    refine ⟨a + (brg.max_bottom_vpad : Int), ?_, by omega, by omega⟩
    simp only [List.pure_def, List.bind_eq_flatMap, List.mem_flatMap,
      List.mem_range, List.mem_singleton]
    exact ⟨(a + (brg.max_bottom_vpad : Int)).toNat, by omega, by omega⟩

theorem gemm_microkernel_instr_shapes (brg : Desc) (ibt : Bool) (L : Nat)
    (irt : Bool) (vpad : Int) (i : Instr)
    (hi : i ∈ gemm_microkernel_instrs brg ibt L irt vpad) :
    (∃ ld rd, i = Instr.loadB ld rd) ∨ (∃ bd rd, i = Instr.loadA bd rd)
      ∨ (∃ r bd ld, i = Instr.mac r bd ld) := by
  rcases (mem_gemm_microkernel_instrs brg ibt L irt vpad i).1 hi with
    ⟨_, k, _, hstep⟩
  rcases (mem_gemm_rd_step_instrs brg L _ vpad _ i).1 hstep with
    (⟨ld, _, rfl⟩ | ⟨bd0, _, (⟨_, rfl⟩ | ⟨ld0, _, rfl⟩)⟩)
  · exact Or.inl ⟨ld, _, rfl⟩
  · exact Or.inr (Or.inl ⟨bd0, _, rfl⟩)
  · exact Or.inr (Or.inr ⟨_, bd0, ld0, rfl⟩)

theorem ld_loop_body_instr_shapes (brg : Desc) (ibt : Bool) (L : Nat)
    (vpad : Int) (i : Instr) (hi : i ∈ ld_loop_body_instrs brg ibt L vpad) :
    (∃ ld rd, i = Instr.loadB ld rd) ∨ (∃ bd rd, i = Instr.loadA bd rd)
      ∨ (∃ r bd ld, i = Instr.mac r bd ld) := by
  unfold ld_loop_body_instrs at hi
  by_cases hv : is_valid_bd brg (if ibt then brg.bdb_tail else brg.bd_block)
      vpad = true
  · rw [if_pos hv] at hi
    rcases List.mem_append.1 hi with h | h
    · rcases List.mem_flatMap.1 h with ⟨_, _, h⟩
      exact gemm_microkernel_instr_shapes brg ibt L false vpad i h
    · by_cases ht : (decide (brg.rdb_tail ≠ 0)) = true
      · rw [if_pos ht] at h
        exact gemm_microkernel_instr_shapes brg ibt L true vpad i h
      · rw [if_neg ht] at h
        cases h
  · rw [if_neg hv] at hi
    cases hi

theorem cmpJne_not_mem_ld_loop_body (brg : Desc) (ibt : Bool) (L : Nat)
    (vpad q : Int) :
    Instr.cmpJne q ∉ ld_loop_body_instrs brg ibt L vpad := by
  intro h
  rcases ld_loop_body_instr_shapes brg ibt L vpad _ h with
    (⟨_, _, he⟩ | ⟨_, _, he⟩ | ⟨_, _, _, he⟩) <;> cases he

theorem mem_cmpJne_bs_body (brg : Desc) (ibt : Bool) (L : Nat)
    (htail : brg.bdb_tail = 0) (q : Int) :
    Instr.cmpJne q ∈ ldb_loop_bs_body_instrs brg ibt L true true ↔
      (-(brg.max_bottom_vpad : Int) ≤ q ∧ q ≤ (brg.max_top_vpad : Int)) := by
  unfold ldb_loop_bs_body_instrs
  rw [if_pos (show (true || true) = true from rfl)]
  constructor
  · intro h
    rcases List.mem_append.1 h with h | h
    · rcases List.mem_flatMap.1 h with ⟨e, he, hin⟩
      rcases List.mem_cons.1 hin with heq | hin
      · cases heq
        have := (vpad_dispatch_entries_no_tail brg ibt htail e).1 he
        exact ⟨this.1, this.2.1⟩
      · rcases List.mem_append.1 hin with hin | hin
        · exact absurd hin (cmpJne_not_mem_ld_loop_body brg ibt L _ q)
        · cases List.mem_singleton.1 hin
    · exact absurd h (cmpJne_not_mem_ld_loop_body brg ibt L 0 q)
  · rintro ⟨h1, h2⟩
    refine List.mem_append.2 (Or.inl (List.mem_flatMap.2
      ⟨⟨q, q⟩, ?_, List.mem_cons_self _ _⟩))
    exact (vpad_dispatch_entries_no_tail brg ibt htail ⟨q, q⟩).2 ⟨h1, h2, rfl⟩

/-- Claim C4: with both padding checks active and no row-block tail, the
emitted batch-step body contains one runtime compare-and-jump for every
padding amount `p` in `[-max_bottom_vpad, max_top_vpad]`, each entry
dispatching to the body specialized for exactly that padding (with the
fall-through body built for padding 0 by construction of
`ldb_loop_bs_body_instrs`); and the accumulation body for padding `p`
issues its A-row multiply-accumulates for exactly the non-padded rows
`max 0 p ≤ bd < min bd_block (bd_block + p)`. -/
theorem C4_virtual_padding_dispatch (brg : Desc)
    (is_bdb_tail is_rd_tail : Bool) (ld_block2 : Nat) (p : Int)
    (bd ld : Nat) (htail : brg.bdb_tail = 0) :
    (∀ q : Int,
      Instr.cmpJne q
          ∈ ldb_loop_bs_body_instrs brg is_bdb_tail ld_block2 true true ↔
        (-(brg.max_bottom_vpad : Int) ≤ q
          ∧ q ≤ (brg.max_top_vpad : Int))) ∧
    (∀ e ∈ vpad_dispatch_entries brg true true is_bdb_tail,
      e.bodyVpad = e.cmpVal) ∧
    (∀ r, Instr.mac r bd ld
        ∈ gemm_microkernel_instrs brg is_bdb_tail ld_block2 is_rd_tail p →
      max 0 p ≤ (bd : Int) ∧
        (bd : Int)
          < min ((if is_bdb_tail then brg.bdb_tail else brg.bd_block : Nat) :
                Int)
              (((if is_bdb_tail then brg.bdb_tail else brg.bd_block : Nat) :
                Int) + p)) ∧
    (is_valid_bd brg (if is_bdb_tail then brg.bdb_tail else brg.bd_block) p
        = true →
      0 < (rd_loop_count brg is_rd_tail + brg.rd_step - 1) / brg.rd_step →
      ld < ld_block2 →
      max 0 p ≤ (bd : Int) →
      (bd : Int)
          < min ((if is_bdb_tail then brg.bdb_tail else brg.bd_block : Nat) :
                Int)
              (((if is_bdb_tail then brg.bdb_tail else brg.bd_block : Nat) :
                Int) + p) →
      Instr.mac (mac_target brg ld_block2 bd ld) bd ld
        ∈ gemm_microkernel_instrs brg is_bdb_tail ld_block2 is_rd_tail p) :=
  by
  refine ⟨fun q => mem_cmpJne_bs_body brg is_bdb_tail ld_block2 htail q,
    fun e he =>
      ((vpad_dispatch_entries_no_tail brg is_bdb_tail htail e).1 he).2.2,
    ?_, ?_⟩
  · intro r hmem
    rcases (mem_gemm_microkernel_instrs brg is_bdb_tail ld_block2 is_rd_tail
        p _).1 hmem with ⟨_, k, _, hstep⟩
    rcases (mem_gemm_rd_step_instrs brg ld_block2 _ p _ _).1 hstep with
      (⟨_, _, heq⟩ | ⟨bd0, hrow, (⟨_, heq⟩ | ⟨ld0, _, heq⟩)⟩)
    · cases heq
    · cases heq
    · cases heq
      have := (mem_microkernel_bd_rows _ p bd).1 hrow
      exact ⟨this.1, this.2⟩
  · intro hvalid hiters hld h1 h2
    refine (mem_gemm_microkernel_instrs brg is_bdb_tail ld_block2 is_rd_tail
        p _).2 ⟨hvalid, 0, hiters, ?_⟩
    refine (mem_gemm_rd_step_instrs brg ld_block2 _ p _ _).2
      (Or.inr ⟨bd, ?_, Or.inr ⟨ld, hld, rfl⟩⟩)
    exact (mem_microkernel_bd_rows _ p bd).2 ⟨h1, h2⟩

/-- Witness for claim C4 on a descriptor with one row of top and bottom
padding: the compare for padding amount 1 is emitted. -/
theorem C4_virtual_padding_dispatch_witness :
    Instr.cmpJne 1 ∈ ldb_loop_bs_body_instrs descC4 false 2 true true :=
  ((C4_virtual_padding_dispatch descC4 false false 2 0 0 0 rfl).1 1).2
    ⟨by decide, by decide⟩

/-- Claim C8: the tile-microkernel opcode selection and the `cvt2ps`
conversion fail (generation-time `assert`) exactly on the element-type
combinations outside their supported sets, generation of the tile
microkernel is all-or-nothing — it produces an instruction stream exactly
when the opcode selection succeeds — and a successfully generated stream
contains no runtime error instruction. -/
theorem C8_generation_time_errors (brg : Desc) (bd_block2 ld_block2 : Nat)
    (is_rd_tail : Bool) :
    ((tdpbxxd_sel brg).isSome ↔ amx_supported brg) ∧
    (∀ t via, (cvt2ps_sel t via).isSome ↔ cvt2ps_supported t via) ∧
    ((gemm_microkernel_amx_gen brg bd_block2 ld_block2 is_rd_tail).isSome
      ↔ amx_supported brg) ∧
    (∀ l, gemm_microkernel_amx_gen brg bd_block2 ld_block2 is_rd_tail
        = some l → ∀ i ∈ l, i ≠ Instr.trap) := by
  have h1 : (tdpbxxd_sel brg).isSome ↔ amx_supported brg := by
    unfold tdpbxxd_sel amx_supported
    split_ifs <;> simp_all [Prod.ext_iff]
  refine ⟨h1, ?_, ?_, ?_⟩
  · intro t via
    cases t <;> cases via <;> simp [cvt2ps_sel, cvt2ps_supported]
  · unfold gemm_microkernel_amx_gen
    cases htd : tdpbxxd_sel brg with
    | none =>
      rw [htd] at h1
      simpa using h1
    | some op =>
      rw [htd] at h1
      simpa using h1
  · intro l hl i hi
    unfold gemm_microkernel_amx_gen at hl
    cases htd : tdpbxxd_sel brg with
    | none =>
      rw [htd] at hl
      cases hl
    | some op =>
      rw [htd] at hl
      cases hl
      rcases List.mem_flatMap.1 hi with ⟨_, _, hi⟩
      rcases List.mem_append.1 hi with hi | hi
      · rcases List.mem_map.1 hi with ⟨_, _, rfl⟩
        intro he
        cases he
      · rcases List.mem_flatMap.1 hi with ⟨_, _, hi⟩
        rcases List.mem_cons.1 hi with rfl | hi
        · intro he
          cases he
        · rcases List.mem_map.1 hi with ⟨_, _, rfl⟩
          intro he
          cases he

/-- Witness for claim C8: the bf16 tile descriptor generates
successfully. -/
theorem C8_generation_time_errors_witness :
    (gemm_microkernel_amx_gen descC8 2 2 false).isSome :=
  (C8_generation_time_errors descC8 2 2 false).2.2.1.2
    (Or.inr ⟨rfl, by decide⟩)

theorem store_accumulators_instr_list_shapes (brg : Desc) (ibt : Bool)
    (L : Nat) (i : Instr)
    (hi : i ∈ store_accumulators_instr_list brg ibt L) :
    (∃ s, i = Instr.stage s) ∨ (∃ r, i = Instr.satCvt r)
      ∨ (∃ r bd ld, i = Instr.storeC r bd ld) := by
  unfold store_accumulators_instr_list at hi
  rcases List.mem_append.1 hi with h | h
  · rcases List.mem_append.1 h with h | h
    · rcases List.mem_append.1 h with h | h
      · split_ifs at h
        · exact Or.inl ⟨_, List.mem_singleton.1 h⟩
        · cases h
      · split_ifs at h
        · exact Or.inl ⟨_, List.mem_singleton.1 h⟩
        · cases h
    · split_ifs at h
      · rcases List.mem_map.1 h with ⟨s, _, rfl⟩
        exact Or.inl ⟨s, rfl⟩
      · cases h
  · rcases (mem_store_without_post_ops_instrs brg _ L i).1 h with
      (⟨_, bd, ld, _, _, rfl⟩ | ⟨bd, ld, _, _, rfl⟩)
    · exact Or.inr (Or.inl ⟨_, rfl⟩)
    · exact Or.inr (Or.inr ⟨_, bd, ld, rfl⟩)

theorem regsAfter_zero_untouched (env : MacEnv) (l : List Instr)
    (hall : ∀ i ∈ l, ∃ s, i = Instr.zeroAcc s) (st : Int → ℚ) (r : Int)
    (hr : Instr.zeroAcc r ∉ l) : regsAfter env l st r = st r := by
  induction l generalizing st with
  | nil => rfl
  | cons a t ih =>
    rcases hall a (List.mem_cons_self a t) with ⟨s, rfl⟩
    have hsr : r ≠ s := fun he =>
      hr (he ▸ List.mem_cons_self _ _)
    have step1 : regsAfter env (Instr.zeroAcc s :: t) st
        = regsAfter env t (stepAcc env st (Instr.zeroAcc s)) := rfl
    rw [step1, ih (fun i hi => hall i (List.mem_cons_of_mem _ hi))
      (stepAcc env st (Instr.zeroAcc s))
      (fun hm => hr (List.mem_cons_of_mem _ hm))]
    show Function.update st s 0 r = st r
    exact Function.update_noteq hsr 0 st

theorem regsAfter_zero_mem (env : MacEnv) (l : List Instr)
    (hall : ∀ i ∈ l, ∃ s, i = Instr.zeroAcc s) (st : Int → ℚ) (r : Int)
    (hr : Instr.zeroAcc r ∈ l) : regsAfter env l st r = 0 := by
  induction l generalizing st with
  | nil => cases hr
  | cons a t ih =>
    rcases hall a (List.mem_cons_self a t) with ⟨s, rfl⟩
    have step1 : regsAfter env (Instr.zeroAcc s :: t) st
        = regsAfter env t (stepAcc env st (Instr.zeroAcc s)) := rfl
    by_cases hmem : Instr.zeroAcc r ∈ t
    · rw [step1]
      exact ih (fun i hi => hall i (List.mem_cons_of_mem _ hi)) _ hmem
    · have hsr : s = r := by
        rcases List.mem_cons.1 hr with he | he
        · cases he
          rfl
        · exact absurd he hmem
      subst hsr
      rw [step1, regsAfter_zero_untouched env t
        (fun i hi => hall i (List.mem_cons_of_mem _ hi)) _ s hmem]
      show Function.update st s 0 s = 0
      exact Function.update_same s 0 st

/-- Claim C10: when the descriptor has `alpha = 0`, the `ldb_loop`
iteration consists of exactly the accumulator zeroing followed by the
store pipeline — the batch/reduction accumulation body is not emitted, so
the stream contains no A loads, no B loads and no multiply-accumulates —
and after the zeroing instructions every accumulator register of the grid
holds zero, so the stored output is the post-processing pipeline applied
to zero accumulators. -/
theorem C10_alpha_zero_skips_accumulation (brg : Desc) (is_bdb_tail : Bool)
    (ld_block2 : Nat) (check_top check_bottom skip_accumulation : Bool)
    (env : MacEnv) (st : Int → ℚ) (h : brg.alpha = 0) :
    ldb_loop_iteration_instrs brg is_bdb_tail ld_block2 check_top
        check_bottom skip_accumulation
      = zero_accumulators_instrs brg is_bdb_tail ld_block2
        ++ store_accumulators_instr_list brg is_bdb_tail ld_block2 ∧
    (∀ i ∈ ldb_loop_iteration_instrs brg is_bdb_tail ld_block2 check_top
        check_bottom skip_accumulation,
      (∀ bd rd, i ≠ Instr.loadA bd rd) ∧ (∀ ld rd, i ≠ Instr.loadB ld rd) ∧
      (∀ r bd ld, i ≠ Instr.mac r bd ld)) ∧
    (∀ bd ld, bd < (if is_bdb_tail then brg.bdb_tail else brg.bd_block) →
      ld < ld_block2 →
      regsAfter env (zero_accumulators_instrs brg is_bdb_tail ld_block2) st
          (accm brg ld_block2 bd ld) = 0) := by
  have heq : ldb_loop_iteration_instrs brg is_bdb_tail ld_block2 check_top
      check_bottom skip_accumulation
      = zero_accumulators_instrs brg is_bdb_tail ld_block2
        ++ store_accumulators_instr_list brg is_bdb_tail ld_block2 := by
    unfold ldb_loop_iteration_instrs
    simp [h]
  refine ⟨heq, ?_, ?_⟩
  · intro i hi
    rw [heq] at hi
    rcases List.mem_append.1 hi with hz | hs
    · rcases (mem_zero_accumulators_instrs brg is_bdb_tail ld_block2 i).1 hz
        with ⟨bd, ld, _, _, rfl⟩
      exact ⟨fun _ _ he => Instr.noConfusion he,
        fun _ _ he => Instr.noConfusion he,
        fun _ _ _ he => Instr.noConfusion he⟩
    · rcases store_accumulators_instr_list_shapes brg is_bdb_tail ld_block2
        i hs with (⟨s, rfl⟩ | ⟨r, rfl⟩ | ⟨r, bd, ld, rfl⟩)
      · exact ⟨fun _ _ he => Instr.noConfusion he,
          fun _ _ he => Instr.noConfusion he,
          fun _ _ _ he => Instr.noConfusion he⟩
      · exact ⟨fun _ _ he => Instr.noConfusion he,
          fun _ _ he => Instr.noConfusion he,
          fun _ _ _ he => Instr.noConfusion he⟩
      · exact ⟨fun _ _ he => Instr.noConfusion he,
          fun _ _ he => Instr.noConfusion he,
          fun _ _ _ he => Instr.noConfusion he⟩
  · intro bd ld hbd hld
    refine regsAfter_zero_mem env _ ?_ st _ ?_
    · intro i hi
      rcases (mem_zero_accumulators_instrs brg is_bdb_tail ld_block2 i).1 hi
        with ⟨bd0, ld0, _, _, rfl⟩
      exact ⟨_, rfl⟩
    · exact (mem_zero_accumulators_instrs brg is_bdb_tail ld_block2 _).2
        ⟨bd, ld, hbd, hld, rfl⟩

/-- Witness for claim C10 on the `alpha = 0` descriptor. -/
theorem C10_alpha_zero_skips_accumulation_witness :
    ldb_loop_iteration_instrs descC10 false 2 false false false
      = zero_accumulators_instrs descC10 false 2
        ++ store_accumulators_instr_list descC10 false 2 :=
  (C10_alpha_zero_skips_accumulation descC10 false 2 false false false
    ⟨fun _ _ => 0, id⟩ (fun _ => 0) rfl).1

/-- Witness for claim C2 on the base descriptor. -/
theorem C2_max_effective_vregs_formula_witness :
    max_effective_vregs descBase = claimed_vreg_budget descBase :=
  C2_max_effective_vregs_formula descBase

/-- Witness for the amended claim C5 on the int8 counterexample
descriptor. -/
theorem C5_amended_post_op_toggle_witness :
    Stage.postOpsS ∉ store_accumulators_stages descC5 false true :=
  (C5_amended_post_op_toggle descC5 true true).1

/-- Witness for the amended claim C6 on the skip-accumulation
descriptor. -/
theorem C6_amended_runtime_flags_witness :
    runtime_bool_flags_read descC6
      = [BoolFlag.doPostOps, BoolFlag.skipAccm, BoolFlag.doComp] :=
  (C6_amended_runtime_flags descC6).1

end Brgemm

